import Mathlib

/-!
# Sqoop syncer start-up: `pkg/syncer/setup_syncer.go`

A shallow embedding of `Setup` and `RunSqoop` and of the two goroutine bodies
that `RunSqoop` defines inline (the HTTP server task and the error-logging
task).

Conventions of the embedding

* Calls into other packages (`bootstrap`, `types`, `contextutils`, the
  generated clients, the event loop) are fields of an environment `Env W`.
  Calls that may touch the outside world take and return a world state `W`.
* Every call with an observable effect, every goroutine started with `go`
  and the call of `RunSqoop` itself are recorded, in program order, in a trace
  of `Action`s.
* Plain constructors that cannot fail (`NewProxyReconciler`, `NewApiEmitter`,
  `NewReporter`, `NewEngine`, `NewRouter`, `NewGraphQLSyncer`,
  `NewApiEventLoop`) are records of their arguments.
* A Go `error` is identified with its message; `nil` is `none`.
* `settings` is a non-nil pointer: with a nil pointer line 74 of the source
  dereferences nil and no later line is reached.
-/

namespace Sqoop

/-! ## Data model -/

/-- A Go `error` value, identified with its message. -/
abbrev Err := String

/-- A `context.Context` handle. -/
structure Context where
  id : Nat
  deriving DecidableEq, Repr

/-- A `time.Duration` (nanoseconds). -/
abbrev Duration := Int

/-- The protobuf duration `*types.Duration` pointed to by `settings.RefreshRate`. -/
structure ProtoDuration where
  Seconds : Int
  Nanos : Int
  deriving DecidableEq, Repr

/-- The fields of `gloov1.Settings` read by `Setup`; `ConfigSource` stands for
the part only `bootstrap.ConfigFactoryForSettings` looks at. -/
structure Settings where
  DiscoveryNamespace : String
  WatchNamespaces : List String
  RefreshRate : Option ProtoDuration
  ConfigSource : Nat
  deriving DecidableEq, Repr

/-- The handle `kube.SharedCache`. -/
structure SharedCache where
  id : Nat
  deriving DecidableEq, Repr

/-- The handle `memory.InMemoryResourceCache`. -/
structure InMemoryResourceCache where
  id : Nat
  deriving DecidableEq, Repr

/-- The value behind `*rest.Config`. -/
structure RestConfig where
  id : Nat
  deriving DecidableEq, Repr

/-- The three resource kinds whose CRD is handed to `ConfigFactoryForSettings`. -/
inductive Crd where
  | ProxyCrd
  | SchemaCrd
  | ResolverMapCrd
  deriving DecidableEq, Repr

/-- The handle `factory.ResourceClientFactory`. -/
structure ResourceClientFactory where
  id : Nat
  deriving DecidableEq, Repr

/-- The struct `clients.WatchOpts`. -/
structure WatchOpts where
  Ctx : Context
  Selector : List (String × String)
  RefreshRate : Duration
  deriving DecidableEq, Repr

/-- The struct `Opts` (source lines 26-35). -/
structure Opts where
  WriteNamespace : String
  WatchNamespaces : List String
  Schemas : ResourceClientFactory
  ResolverMaps : ResourceClientFactory
  Proxies : ResourceClientFactory
  WatchOpts : WatchOpts
  DevMode : Bool
  SidecarAddr : String
  deriving DecidableEq, Repr

/-- The handle `gloov1.ProxyClient`. -/
structure ProxyClient where
  id : Nat
  deriving DecidableEq, Repr

/-- The handle `v1.SchemaClient`. -/
structure SchemaClient where
  id : Nat
  deriving DecidableEq, Repr

/-- The handle `v1.ResolverMapClient`. -/
structure ResolverMapClient where
  id : Nat
  deriving DecidableEq, Repr

/-- The result of `BaseClient()` on a typed client. -/
inductive BaseClient where
  | ofResolverMap (c : ResolverMapClient)
  | ofSchema (c : SchemaClient)
  deriving DecidableEq, Repr

/-- The value `gloov1.NewProxyReconciler(proxyClient)`. -/
structure ProxyReconciler where
  proxyClient : ProxyClient
  deriving DecidableEq, Repr

/-- The value `v1.NewApiEmitter(resolverMapClient, schemaClient)`. -/
structure ApiEmitter where
  resolverMapClient : ResolverMapClient
  schemaClient : SchemaClient
  deriving DecidableEq, Repr

/-- The value `reporter.NewReporter(name, clients...)`. -/
structure Reporter where
  name : String
  clients : List BaseClient
  deriving DecidableEq, Repr

/-- Error channels: the one made at source line 144, and those returned by
`eventLoop.Run`. -/
inductive ErrChan where
  | made
  | eventLoopErrs (id : Nat)
  deriving DecidableEq, Repr

/-- The value `engine.NewEngine(sidecarAddr)`. -/
structure Engine where
  sidecarAddr : String
  deriving DecidableEq, Repr

/-- The value `router.NewRouter()`. -/
inductive Router where
  | new
  deriving DecidableEq, Repr

/-- The value `NewGraphQLSyncer(writeNamespace, rpt, writeErrs, proxyReconciler,
resolverMapClient, eng, rtr)`. -/
structure GraphQLSyncer where
  writeNamespace : String
  reporter : Reporter
  writeErrs : ErrChan
  proxyReconciler : ProxyReconciler
  resolverMapClient : ResolverMapClient
  engine : Engine
  router : Router
  deriving DecidableEq, Repr

/-- The value `v1.NewApiEventLoop(emitter, sync)`. -/
structure ApiEventLoop where
  emitter : ApiEmitter
  syncer : GraphQLSyncer
  deriving DecidableEq, Repr

/-- The goroutines `RunSqoop` starts, with the values they capture. -/
inductive Task where
  /-- Source lines 156-162: logger taken from `loggerCtx`, serves `rtr` on `port`. -/
  | server (loggerCtx : Context) (port : Nat) (rtr : Router)
  /-- Source line 169: `errutils.AggregateErrs(ctx, dest, src, srcInfo)`. -/
  | aggregateErrs (ctx : Context) (dest : ErrChan) (src : ErrChan) (srcInfo : String)
  /-- Source lines 171-183: logger taken from `loggerCtx`, receives on `ch`,
  waits on `doneCtx.Done()`. -/
  | errorLogger (loggerCtx : Context) (ch : ErrChan) (doneCtx : Context)
  deriving DecidableEq, Repr

/-- What `Setup` and `RunSqoop` do that is visible from outside, in program order. -/
inductive Action where
  | configFactoryForSettings (crd : Crd)
  | durationFromProto (d : Option ProtoDuration)
  | runSqoop (opts : Opts)
  | newProxyClient (f : ResourceClientFactory)
  | proxyRegister (c : ProxyClient)
  | newSchemaClient (f : ResourceClientFactory)
  | schemaRegister (c : SchemaClient)
  | newResolverMapClient (f : ResourceClientFactory)
  | resolverMapRegister (c : ResolverMapClient)
  | go (t : Task)
  | eventLoopRun (loop : ApiEventLoop) (namespaces : List String) (opts : WatchOpts)
  deriving DecidableEq, Repr

/-- What a call returns: the Go `error` (`none` for `nil`), the world it leaves
and the actions it performed. -/
structure Outcome (W : Type) where
  err : Option Err
  world : W
  trace : List Action

/-- The code outside `setup_syncer.go` that `Setup` and `RunSqoop` call, and the
package constants they read. -/
structure Env (W : Type) where
  /-- The constant `defaults.GlooSystem`. -/
  GlooSystem : String
  /-- The constant `TODO.SqoopSidecarBindPort`. -/
  SqoopSidecarBindPort : Nat
  /-- The constant `TODO.SqoopServerBindPort`. -/
  SqoopServerBindPort : Nat
  /-- The call `bootstrap.ConfigFactoryForSettings(settings, cache, kubeCache, crd, &cfg)`;
  the call may write through `&cfg`. -/
  ConfigFactoryForSettings : Settings → InMemoryResourceCache → SharedCache → Crd →
    Option RestConfig → W → Except Err ResourceClientFactory × Option RestConfig × W
  /-- The function `types.DurationFromProto`. -/
  DurationFromProto : Option ProtoDuration → Except Err Duration
  /-- The method `clients.WatchOpts.WithDefaults`. -/
  WithDefaults : WatchOpts → WatchOpts
  /-- The function `contextutils.WithLogger`. -/
  WithLogger : Context → String → Context
  /-- The function `gloov1.NewProxyClient`. -/
  NewProxyClient : ResourceClientFactory → W → Except Err ProxyClient × W
  /-- The method `ProxyClient.Register`. -/
  ProxyRegister : ProxyClient → W → Option Err × W
  /-- The function `v1.NewSchemaClient`. -/
  NewSchemaClient : ResourceClientFactory → W → Except Err SchemaClient × W
  /-- The method `SchemaClient.Register`. -/
  SchemaRegister : SchemaClient → W → Option Err × W
  /-- The function `v1.NewResolverMapClient`. -/
  NewResolverMapClient : ResourceClientFactory → W → Except Err ResolverMapClient × W
  /-- The method `ResolverMapClient.Register`. -/
  ResolverMapRegister : ResolverMapClient → W → Option Err × W
  /-- The method `ApiEventLoop.Run(namespaces, opts)`. -/
  EventLoopRun : ApiEventLoop → List String → WatchOpts → W → Except Err ErrChan × W

/-! ## `RunSqoop` (source lines 109-185) -/

/-- The function `RunSqoop`. -/
def RunSqoop {W : Type} (env : Env W) (opts : Opts) (w : W) : Outcome W :=
  let watchNamespaces := opts.WatchNamespaces
  let wo := env.WithDefaults opts.WatchOpts
  let wo : WatchOpts := { wo with Ctx := env.WithLogger wo.Ctx "gateway" }
  let a1 := Action.newProxyClient opts.Proxies
  match env.NewProxyClient opts.Proxies w with
  | (.error err, w) => ⟨some err, w, [a1]⟩
  | (.ok proxyClient, w) =>
  let a2 := Action.proxyRegister proxyClient
  match env.ProxyRegister proxyClient w with
  | (some err, w) => ⟨some err, w, [a1, a2]⟩
  | (none, w) =>
  let a3 := Action.newSchemaClient opts.Schemas
  match env.NewSchemaClient opts.Schemas w with
  | (.error err, w) => ⟨some err, w, [a1, a2, a3]⟩
  | (.ok schemaClient, w) =>
  let a4 := Action.schemaRegister schemaClient
  match env.SchemaRegister schemaClient w with
  | (some err, w) => ⟨some err, w, [a1, a2, a3, a4]⟩
  | (none, w) =>
  let a5 := Action.newResolverMapClient opts.ResolverMaps
  match env.NewResolverMapClient opts.ResolverMaps w with
  | (.error err, w) => ⟨some err, w, [a1, a2, a3, a4, a5]⟩
  | (.ok resolverMapClient, w) =>
  let a6 := Action.resolverMapRegister resolverMapClient
  match env.ResolverMapRegister resolverMapClient w with
  | (some err, w) => ⟨some err, w, [a1, a2, a3, a4, a5, a6]⟩
  | (none, w) =>
  let proxyReconciler : ProxyReconciler := ⟨proxyClient⟩
  let emitter : ApiEmitter := ⟨resolverMapClient, schemaClient⟩
  let rpt : Reporter :=
    ⟨"sqoop", [BaseClient.ofResolverMap resolverMapClient, BaseClient.ofSchema schemaClient]⟩
  let writeErrs := ErrChan.made
  let eng : Engine := ⟨opts.SidecarAddr⟩
  let rtr := Router.new
  let sync : GraphQLSyncer :=
    ⟨opts.WriteNamespace, rpt, writeErrs, proxyReconciler, resolverMapClient, eng, rtr⟩
  let a7 := Action.go (Task.server wo.Ctx env.SqoopServerBindPort rtr)
  let eventLoop : ApiEventLoop := ⟨emitter, sync⟩
  let a8 := Action.eventLoopRun eventLoop watchNamespaces wo
  match env.EventLoopRun eventLoop watchNamespaces wo w with
  | (.error err, w) => ⟨some err, w, [a1, a2, a3, a4, a5, a6, a7, a8]⟩
  | (.ok eventLoopErrs, w) =>
  let a9 := Action.go (Task.aggregateErrs wo.Ctx writeErrs eventLoopErrs "event_loop")
  let a10 := Action.go (Task.errorLogger wo.Ctx writeErrs wo.Ctx)
  ⟨none, w, [a1, a2, a3, a4, a5, a6, a7, a8, a9, a10]⟩

/-! ## `Setup` (source lines 37-107) -/

/-- Source lines 79-82: the write namespace chosen from the settings. -/
def writeNamespace {W : Type} (env : Env W) (settings : Settings) : String :=
  if settings.DiscoveryNamespace = "" then env.GlooSystem else settings.DiscoveryNamespace

/-- Source lines 84-90: the loop that looks for the write namespace among the
watched ones and stops at the first hit. -/
def writeNamespaceProvided : List String → String → Bool
  | [], _ => false
  | ns :: rest, writeNs => if ns = writeNs then true else writeNamespaceProvided rest writeNs

/-- Source lines 83-93: the watch list, with the write namespace appended when
the loop did not find it. -/
def watchNamespaces (configured : List String) (writeNs : String) : List String :=
  if writeNamespaceProvided configured writeNs then configured else configured ++ [writeNs]

/-- The function `Setup`. -/
def Setup {W : Type} (env : Env W) (ctx : Context) (kubeCache : SharedCache)
    (cache : InMemoryResourceCache) (settings : Settings) (w : W) : Outcome W :=
  let cfg : Option RestConfig := none
  let a1 := Action.configFactoryForSettings Crd.ProxyCrd
  match env.ConfigFactoryForSettings settings cache kubeCache Crd.ProxyCrd cfg w with
  | (.error err, _, w) => ⟨some err, w, [a1]⟩
  | (.ok proxyFactory, cfg, w) =>
  let a2 := Action.configFactoryForSettings Crd.SchemaCrd
  match env.ConfigFactoryForSettings settings cache kubeCache Crd.SchemaCrd cfg w with
  | (.error err, _, w) => ⟨some err, w, [a1, a2]⟩
  | (.ok schemaFactory, cfg, w) =>
  let a3 := Action.configFactoryForSettings Crd.ResolverMapCrd
  match env.ConfigFactoryForSettings settings cache kubeCache Crd.ResolverMapCrd cfg w with
  | (.error err, _, w) => ⟨some err, w, [a1, a2, a3]⟩
  | (.ok resolverMapFactory, _, w) =>
  let a4 := Action.durationFromProto settings.RefreshRate
  match env.DurationFromProto settings.RefreshRate with
  | .error err => ⟨some err, w, [a1, a2, a3, a4]⟩
  | .ok refreshRate =>
  let writeNs := writeNamespace env settings
  let opts : Opts :=
    { WriteNamespace := writeNs
      WatchNamespaces := watchNamespaces settings.WatchNamespaces writeNs
      Schemas := schemaFactory
      ResolverMaps := resolverMapFactory
      Proxies := proxyFactory
      WatchOpts := { Ctx := ctx, Selector := [], RefreshRate := refreshRate }
      DevMode := false
      SidecarAddr := "127.0.0.1" ++ ":" ++ toString env.SqoopSidecarBindPort }
  let r := RunSqoop env opts w
  ⟨r.err, r.world, [a1, a2, a3, a4, Action.runSqoop opts] ++ r.trace⟩

/-! ## The goroutines defined inside `RunSqoop`

`contextutils.LoggerFrom` returns a `*zap.SugaredLogger`. Its `Infof` and
`Errorf` write one entry and return; its `Fatalf` writes one entry and then
calls `os.Exit(1)`. -/

/-- The level of a log entry. -/
inductive Level where
  | info
  | error
  | fatal
  deriving DecidableEq, Repr

/-- One call of `Infof`, `Errorf` or `Fatalf`: the format string and the
rendering of its argument. -/
structure LogEntry where
  level : Level
  format : String
  arg : String
  deriving DecidableEq, Repr

/-- Whether writing these entries ends the process: exactly when one of them
was written by `Fatalf`. -/
def processExits (log : List LogEntry) : Bool :=
  log.any fun entry => decide (entry.level = Level.fatal)

/-- Source lines 156-162, the server goroutine. `listenAndServe addr handler` is the value
`http.ListenAndServe` returns (`none` for `nil`). -/
def serverTask (port : Nat) (rtr : Router) (listenAndServe : String → Router → Option Err) :
    List LogEntry :=
  let started : LogEntry := ⟨Level.info, "starting graphql server on %d", toString port⟩
  match listenAndServe (":" ++ toString port) rtr with
  | some err => [started, ⟨Level.fatal, "failed starting sqoop server: %v", err⟩]
  | none => [started]

/-- The case the `select` of source lines 175-181 takes in one iteration of the loop. -/
inductive Selected where
  /-- The case `err := <-writeErrs`. -/
  | recv (err : Err)
  /-- The case `<-opts.WatchOpts.Ctx.Done()`. -/
  | done
  deriving DecidableEq, Repr

/-- The state of the logging goroutine: what it has logged, whether it has
executed `close(writeErrs)` and whether it has returned. -/
structure LoggerState where
  log : List LogEntry
  closed : Bool
  returned : Bool
  deriving DecidableEq, Repr

/-- The logging goroutine as it is started. -/
def LoggerState.start : LoggerState := ⟨[], false, false⟩

/-- One iteration of the loop of source lines 174-182. -/
def loggerIter (sel : Selected) (s : LoggerState) : LoggerState :=
  match sel with
  | Selected.recv err => { s with log := s.log ++ [⟨Level.error, "error: %v", err⟩] }
  | Selected.done => { s with closed := true, returned := true }

/-- Source lines 173-183, the logging goroutine, run over the cases its `select`
takes; nothing is executed after the `return`. -/
def loggerTask : List Selected → LoggerState → LoggerState
  | [], s => s
  | sel :: rest, s => if s.returned then s else loggerTask rest (loggerIter sel s)

/-! ## The channel `writeErrs` between its senders and the logging goroutine

`writeErrs` is made without a buffer (source line 144): a send stays in flight
until the receiver takes it. The senders (the syncer and `AggregateErrs`) and
the cancellation of the context are the environment of this system; the logging
goroutine is the code above.

Go's rules for a closed channel are part of the system: a send begun on a closed
channel panics, and `close` makes every sender blocked on the channel panic. An
unrecovered panic ends the process, after which nothing happens any more. -/

/-- The channel, the context and the logging goroutine. -/
structure ChanState where
  /-- Sends begun on `writeErrs` and not received, oldest first. -/
  inFlight : List Err
  /-- The errors the channel has handed to its receiver, oldest first. -/
  received : List Err
  /-- Sends begun on the closed channel. -/
  sentOnClosed : List Err
  /-- Whether the context is done. -/
  cancelled : Bool
  logger : LoggerState
  /-- Whether a sender has panicked with `send on closed channel`. -/
  panicked : Bool
  deriving DecidableEq, Repr

/-- The system right after `RunSqoop` has started the logging goroutine. -/
def ChanState.start : ChanState := ⟨[], [], [], false, LoggerState.start, false⟩

/-- What can happen next. -/
inductive Event where
  /-- Some task begins `writeErrs <- err`. -/
  | send (err : Err)
  /-- The sender of the in-flight send at position `i` gives its send up (a
  sender that waits in a `select` of its own and takes another case). -/
  | abandon (i : Nat)
  /-- The context is cancelled. -/
  | cancel
  /-- The logging goroutine's `select` takes the receive case. -/
  | loggerRecv
  /-- The logging goroutine's `select` takes the `Done` case. -/
  | loggerDone
  deriving DecidableEq, Repr

/-- One event; `none` when the event cannot happen in this state. Nothing
happens after a panic. A send begun on the closed channel panics. The receive
case needs a send in flight, and hands the oldest one to the logging goroutine;
the `Done` case needs a cancelled context, runs `close(writeErrs)`, and the
senders then still blocked on the channel panic; neither case is taken once the
goroutine has returned. -/
def step (ev : Event) (s : ChanState) : Option ChanState :=
  if s.panicked then none
  else match ev with
  | Event.send err =>
      if s.logger.closed then
        some { s with sentOnClosed := s.sentOnClosed ++ [err], panicked := true }
      else some { s with inFlight := s.inFlight ++ [err] }
  | Event.abandon i =>
      if i < s.inFlight.length then some { s with inFlight := s.inFlight.eraseIdx i }
      else none
  | Event.cancel => some { s with cancelled := true }
  | Event.loggerRecv =>
      if s.logger.returned then none
      else match s.inFlight with
        | [] => none
        | err :: rest =>
            some { s with
              inFlight := rest
              received := s.received ++ [err]
              logger := loggerIter (Selected.recv err) s.logger }
  | Event.loggerDone =>
      if s.logger.returned then none
      else if s.cancelled then
        some { s with
          logger := loggerIter Selected.done s.logger
          panicked := !s.inFlight.isEmpty }
      else none

/-- A schedule of events, from first to last. -/
def run : List Event → ChanState → Option ChanState
  | [], s => some s
  | ev :: rest, s =>
      match step ev s with
      | none => none
      | some s1 => run rest s1

/-- The errors of the `send` events of a schedule, in order. -/
def sends : List Event → List Err
  | [] => []
  | Event.send err :: rest => err :: sends rest
  | _ :: rest => sends rest

/-- Whether a schedule has an `abandon` event. -/
def hasAbandon : List Event → Bool
  | [] => false
  | Event.abandon _ :: _ => true
  | _ :: rest => hasAbandon rest

/-- Every error the channel holds or has held: handed to the receiver, in
flight, or sent on the closed channel, in this order. -/
def ChanState.held (s : ChanState) : List Err :=
  s.received ++ s.inFlight ++ s.sentOnClosed

/-- What holds of the channel system in every reachable state: the channel is
closed exactly when the logging goroutine has returned, only after the context
was cancelled; while it is open no send was made on the closed channel and no
sender has panicked; and the log is the list of the errors received. -/
def ChanState.Consistent (s : ChanState) : Prop :=
  s.logger.closed = s.logger.returned ∧
    (s.logger.closed = true → s.cancelled = true) ∧
    (s.logger.closed = false → s.sentOnClosed = [] ∧ s.panicked = false) ∧
    s.logger.log = s.received.map (fun err => ⟨Level.error, "error: %v", err⟩)

/-- The errors a log reports, in order. -/
def loggedErrs (log : List LogEntry) : List Err :=
  log.map fun entry => entry.arg

/-- The namespace lists handed to `eventLoop.Run` in a trace, in order. -/
def runNamespaces : List Action → List (List String)
  | [] => []
  | Action.eventLoopRun _ nss _ :: rest => nss :: runNamespaces rest
  | _ :: rest => runNamespaces rest

/-- The goroutines started in a trace, in order. -/
def tasksStarted : List Action → List Task
  | [] => []
  | Action.go t :: rest => t :: tasksStarted rest
  | _ :: rest => tasksStarted rest

/-! ## Concrete environments -/

/-- An environment in which every call succeeds; the world counts the calls. -/
def envOk : Env Nat where
  GlooSystem := "gloo-system"
  SqoopSidecarBindPort := 9090
  SqoopServerBindPort := 9095
  ConfigFactoryForSettings := fun _ _ _ crd _ w =>
    match crd with
    | Crd.ProxyCrd => (.ok ⟨1⟩, some ⟨7⟩, w + 1)
    | Crd.SchemaCrd => (.ok ⟨2⟩, some ⟨7⟩, w + 1)
    | Crd.ResolverMapCrd => (.ok ⟨3⟩, some ⟨7⟩, w + 1)
  DurationFromProto := fun d =>
    match d with
    | none => .error "nil Duration"
    | some p => .ok (p.Seconds * 1000000000 + p.Nanos)
  WithDefaults := fun wo => wo
  WithLogger := fun ctx _ => ⟨ctx.id + 100⟩
  NewProxyClient := fun f w => (.ok ⟨f.id⟩, w + 1)
  ProxyRegister := fun _ w => (none, w + 1)
  NewSchemaClient := fun f w => (.ok ⟨f.id⟩, w + 1)
  SchemaRegister := fun _ w => (none, w + 1)
  NewResolverMapClient := fun f w => (.ok ⟨f.id⟩, w + 1)
  ResolverMapRegister := fun _ w => (none, w + 1)
  EventLoopRun := fun _ _ _ w => (.ok (ErrChan.eventLoopErrs 0), w + 1)

/-- As `envOk`, but registering the schema kind fails. -/
def envSchemaRegisterFails : Env Nat :=
  { envOk with SchemaRegister := fun _ w => (some "schema: register failed", w + 1) }

/-- As `envOk`, but the schema factory cannot be built. -/
def envSchemaFactoryFails : Env Nat :=
  { envOk with
    ConfigFactoryForSettings := fun _ _ _ crd _ w =>
      match crd with
      | Crd.ProxyCrd => (.ok ⟨1⟩, some ⟨7⟩, w + 1)
      | Crd.SchemaCrd => (.error "schema: no config source", some ⟨7⟩, w + 1)
      | Crd.ResolverMapCrd => (.ok ⟨3⟩, some ⟨7⟩, w + 1) }

/-- Settings that name a discovery namespace outside the watched ones. -/
def settingsA : Settings :=
  { DiscoveryNamespace := "sqoop-system"
    WatchNamespaces := ["default", "team-a"]
    RefreshRate := some ⟨1, 0⟩
    ConfigSource := 0 }

/-- Settings whose discovery namespace is spelled out and is the default one. -/
def settingsDefaultSpelledOut : Settings :=
  { DiscoveryNamespace := "gloo-system"
    WatchNamespaces := []
    RefreshRate := some ⟨1, 0⟩
    ConfigSource := 0 }

/-- Options built by hand, whose watch list leaves out the write namespace. -/
def optsDirect : Opts :=
  { WriteNamespace := "gloo-system"
    WatchNamespaces := ["default"]
    Schemas := ⟨2⟩
    ResolverMaps := ⟨3⟩
    Proxies := ⟨1⟩
    WatchOpts := { Ctx := ⟨0⟩, Selector := [], RefreshRate := 1000000000 }
    DevMode := false
    SidecarAddr := "127.0.0.1:9090" }

/-- The options `Setup` builds from `settingsA` in `envOk` for the context `⟨0⟩`. -/
def optsA : Opts :=
  { WriteNamespace := "sqoop-system"
    WatchNamespaces := ["default", "team-a", "sqoop-system"]
    Schemas := ⟨2⟩
    ResolverMaps := ⟨3⟩
    Proxies := ⟨1⟩
    WatchOpts := { Ctx := ⟨0⟩, Selector := [], RefreshRate := 1000000000 }
    DevMode := false
    SidecarAddr := "127.0.0.1:9090" }

/-- The options `Setup` builds from `settingsDefaultSpelledOut` in `envOk` for the
context `⟨0⟩`. -/
def optsDefaultSpelledOut : Opts :=
  { WriteNamespace := "gloo-system"
    WatchNamespaces := ["gloo-system"]
    Schemas := ⟨2⟩
    ResolverMaps := ⟨3⟩
    Proxies := ⟨1⟩
    WatchOpts := { Ctx := ⟨0⟩, Selector := [], RefreshRate := 1000000000 }
    DevMode := false
    SidecarAddr := "127.0.0.1:9090" }

/-- A serve call that fails because the port is taken. -/
def serveFails : String → Router → Option Err :=
  fun _ _ => some "listen tcp :9095: bind: address already in use"

/-! ## Auxiliary lemmas -/

theorem writeNamespaceProvided_iff (l : List String) (w : String) :
    writeNamespaceProvided l w = true ↔ w ∈ l := by
  induction l with
  | nil => simp [writeNamespaceProvided]
  | cons ns rest ih =>
    by_cases h : ns = w
    · simp [writeNamespaceProvided, h]
    · have h2 : ¬ w = ns := fun e => h e.symm
      simp [writeNamespaceProvided, h, h2, ih]

theorem watchNamespaces_of_mem (l : List String) (w : String) (h : w ∈ l) :
    watchNamespaces l w = l := by
  simp [watchNamespaces, (writeNamespaceProvided_iff l w).2 h]

theorem watchNamespaces_of_not_mem (l : List String) (w : String) (h : w ∉ l) :
    watchNamespaces l w = l ++ [w] := by
  have h2 : writeNamespaceProvided l w = false := by
    cases hb : writeNamespaceProvided l w with
    | false => rfl
    | true => exact absurd ((writeNamespaceProvided_iff l w).1 hb) h
  simp [watchNamespaces, h2]

theorem mem_watchNamespaces (l : List String) (w : String) : w ∈ watchNamespaces l w := by
  by_cases h : w ∈ l
  · rw [watchNamespaces_of_mem l w h]; exact h
  · rw [watchNamespaces_of_not_mem l w h]; simp

theorem runSqoop_not_mem_RunSqoop_trace {W : Type} (env : Env W) (opts : Opts) (w : W)
    (o : Opts) : Action.runSqoop o ∉ (RunSqoop env opts w).trace := by
  unfold RunSqoop
  simp only []
  repeat (first | split | simp)

theorem Setup_runSqoop_opts {W : Type} (env : Env W) (ctx : Context) (kubeCache : SharedCache)
    (cache : InMemoryResourceCache) (settings : Settings) (w : W) (opts : Opts)
    (h : Action.runSqoop opts ∈ (Setup env ctx kubeCache cache settings w).trace) :
    ∃ proxyFactory schemaFactory resolverMapFactory refreshRate,
      env.DurationFromProto settings.RefreshRate = .ok refreshRate ∧
      opts =
        { WriteNamespace := writeNamespace env settings
          WatchNamespaces := watchNamespaces settings.WatchNamespaces (writeNamespace env settings)
          Schemas := schemaFactory
          ResolverMaps := resolverMapFactory
          Proxies := proxyFactory
          WatchOpts := { Ctx := ctx, Selector := [], RefreshRate := refreshRate }
          DevMode := false
          SidecarAddr := "127.0.0.1" ++ ":" ++ toString env.SqoopSidecarBindPort } := by
  unfold Setup at h
  simp only [] at h
  split at h
  · simp at h
  · split at h
    · simp at h
    · split at h
      · simp at h
      · split at h
        · simp at h
        · rename_i refreshRate hd
          simp [runSqoop_not_mem_RunSqoop_trace] at h
          exact ⟨_, _, _, refreshRate, hd, h⟩

/-! ## The watch list and the write namespace built by `Setup` -/

/-- C1: whenever `Setup` reaches `RunSqoop`, the `Opts` it passes have their
`WriteNamespace` among their `WatchNamespaces`, whatever the configured watch
list was (it may already list the write namespace, or be empty). -/
theorem Setup_writeNamespace_mem_watchNamespaces {W : Type} (env : Env W) (ctx : Context)
    (kubeCache : SharedCache) (cache : InMemoryResourceCache) (settings : Settings) (w : W)
    (opts : Opts)
    (h : Action.runSqoop opts ∈ (Setup env ctx kubeCache cache settings w).trace) :
    opts.WriteNamespace ∈ opts.WatchNamespaces := by
  obtain ⟨pf, sf, rf, rr, _, rfl⟩ := Setup_runSqoop_opts env ctx kubeCache cache settings w opts h
  exact mem_watchNamespaces _ _

/-- Witness for C1: with the discovery namespace `sqoop-system` missing from the
configured list, `Setup` reaches `RunSqoop` with `optsA`, whose watch list ends
in the write namespace. -/
theorem Setup_writeNamespace_mem_watchNamespaces_witness :
    Action.runSqoop optsA ∈ (Setup envOk ⟨0⟩ ⟨0⟩ ⟨0⟩ settingsA 0).trace ∧
      optsA.WatchNamespaces = ["default", "team-a", "sqoop-system"] ∧
      optsA.WriteNamespace ∈ optsA.WatchNamespaces :=
  ⟨by decide, rfl,
    Setup_writeNamespace_mem_watchNamespaces envOk ⟨0⟩ ⟨0⟩ ⟨0⟩ settingsA 0 optsA (by decide)⟩

/-- C9: the watch list `Setup` computes is the configured list itself when that
list contains the write namespace, and the configured list followed by the write
namespace otherwise. The configured list is an initial segment of the result
(order kept, nothing removed), the write namespace occurs at most once more than
before, computing again on the result changes nothing, and this list is the one
`Setup` puts into the `Opts` it passes to `RunSqoop`. -/
theorem watchNamespaces_spec (configured : List String) (writeNs : String) :
    (writeNs ∈ configured → watchNamespaces configured writeNs = configured) ∧
    (writeNs ∉ configured → watchNamespaces configured writeNs = configured ++ [writeNs]) ∧
    configured <+: watchNamespaces configured writeNs ∧
    (∀ ns ∈ configured, ns ∈ watchNamespaces configured writeNs) ∧
    (∀ ns, ns ≠ writeNs →
      (watchNamespaces configured writeNs).count ns = configured.count ns) ∧
    (watchNamespaces configured writeNs).count writeNs ≤ configured.count writeNs + 1 ∧
    watchNamespaces (watchNamespaces configured writeNs) writeNs
      = watchNamespaces configured writeNs ∧
    (∀ (W : Type) (env : Env W) (ctx : Context) (kubeCache : SharedCache)
      (cache : InMemoryResourceCache) (settings : Settings) (w : W) (opts : Opts),
      Action.runSqoop opts ∈ (Setup env ctx kubeCache cache settings w).trace →
      opts.WatchNamespaces = watchNamespaces settings.WatchNamespaces opts.WriteNamespace) := by
  refine ⟨watchNamespaces_of_mem configured writeNs,
    watchNamespaces_of_not_mem configured writeNs, ?_, ?_, ?_, ?_, ?_, ?_⟩
  · by_cases h : writeNs ∈ configured
    · rw [watchNamespaces_of_mem _ _ h]
    · rw [watchNamespaces_of_not_mem _ _ h]; exact List.prefix_append _ _
  · intro ns hns
    by_cases h : writeNs ∈ configured
    · rw [watchNamespaces_of_mem _ _ h]; exact hns
    · rw [watchNamespaces_of_not_mem _ _ h]; exact List.mem_append_left _ hns
  · intro ns hne
    by_cases h : writeNs ∈ configured
    · rw [watchNamespaces_of_mem _ _ h]
    · rw [watchNamespaces_of_not_mem _ _ h]
      have hne2 : ¬ writeNs = ns := fun e => hne e.symm
      simp [List.count_append, List.count_cons, hne2]
  · by_cases h : writeNs ∈ configured
    · rw [watchNamespaces_of_mem _ _ h]; exact Nat.le_succ _
    · rw [watchNamespaces_of_not_mem _ _ h]
      simp [List.count_append]
  · exact watchNamespaces_of_mem _ _ (mem_watchNamespaces configured writeNs)
  · intro W env ctx kubeCache cache settings w opts h
    obtain ⟨pf, sf, rf, rr, _, rfl⟩ :=
      Setup_runSqoop_opts env ctx kubeCache cache settings w opts h
    rfl

/-- C10, the claim refuted as stated: with `defaults.GlooSystem` being
`gloo-system` and the settings spelling out `gloo-system` as discovery
namespace, the write namespace `Setup` passes on equals `defaults.GlooSystem`
although `settings.DiscoveryNamespace` is not empty. -/
theorem writeNamespace_default_not_only_when_empty :
    Action.runSqoop optsDefaultSpelledOut
        ∈ (Setup envOk ⟨0⟩ ⟨0⟩ ⟨0⟩ settingsDefaultSpelledOut 0).trace ∧
      optsDefaultSpelledOut.WriteNamespace = envOk.GlooSystem ∧
      writeNamespace envOk settingsDefaultSpelledOut = envOk.GlooSystem ∧
      settingsDefaultSpelledOut.DiscoveryNamespace ≠ "" := by
  decide

/-- C10, amended: the write namespace `Setup` passes on is
`settings.DiscoveryNamespace` when that is non-empty and `defaults.GlooSystem`
when it is empty; it equals `defaults.GlooSystem` exactly when
`settings.DiscoveryNamespace` is empty or is itself `defaults.GlooSystem`; and
when `defaults.GlooSystem` is non-empty it is never the empty string. -/
theorem writeNamespace_spec {W : Type} (env : Env W) (settings : Settings) :
    (settings.DiscoveryNamespace ≠ "" →
      writeNamespace env settings = settings.DiscoveryNamespace) ∧
    (settings.DiscoveryNamespace = "" → writeNamespace env settings = env.GlooSystem) ∧
    (writeNamespace env settings = env.GlooSystem ↔
      settings.DiscoveryNamespace = "" ∨ settings.DiscoveryNamespace = env.GlooSystem) ∧
    (env.GlooSystem ≠ "" → writeNamespace env settings ≠ "") ∧
    (∀ (ctx : Context) (kubeCache : SharedCache) (cache : InMemoryResourceCache) (w : W)
      (opts : Opts),
      Action.runSqoop opts ∈ (Setup env ctx kubeCache cache settings w).trace →
      opts.WriteNamespace = writeNamespace env settings ∧
        (env.GlooSystem ≠ "" → opts.WriteNamespace ≠ "")) := by
  have key : env.GlooSystem ≠ "" → writeNamespace env settings ≠ "" := by
    intro hg
    unfold writeNamespace
    split
    · exact hg
    · assumption
  refine ⟨?_, ?_, ?_, key, ?_⟩
  · intro h; simp [writeNamespace, h]
  · intro h; simp [writeNamespace, h]
  · unfold writeNamespace
    constructor
    · intro h
      split at h
      · left; assumption
      · right; exact h
    · rintro (h | h)
      · simp [h]
      · split
        · rfl
        · exact h
  · intro ctx kubeCache cache w opts h
    obtain ⟨pf, sf, rf, rr, _, rfl⟩ :=
      Setup_runSqoop_opts env ctx kubeCache cache settings w opts h
    exact ⟨rfl, key⟩

/-- Witness for C10: in `envOk` the settings `settingsA` name the discovery
namespace `sqoop-system`, and that is the write namespace. -/
theorem writeNamespace_spec_witness :
    settingsA.DiscoveryNamespace ≠ "" ∧ writeNamespace envOk settingsA = "sqoop-system" :=
  ⟨by decide, ((writeNamespace_spec envOk settingsA).1 (by decide)).trans rfl⟩

/-! ## Start-up errors -/

/-- C7: in `Setup`, when building the proxy factory, the schema factory or the
resolver-map factory fails, or converting `settings.RefreshRate` fails, `Setup`
returns the error of the first failing step, having performed only the steps up
to that one (so `RunSqoop` is not called); when all four succeed, `Setup` calls
`RunSqoop` once and returns what `RunSqoop` returns. -/
theorem Setup_error_propagation {W : Type} (env : Env W) (ctx : Context)
    (kubeCache : SharedCache) (cache : InMemoryResourceCache) (settings : Settings) (w : W) :
    (∀ err cfg1 w1,
      env.ConfigFactoryForSettings settings cache kubeCache Crd.ProxyCrd none w
        = (.error err, cfg1, w1) →
      Setup env ctx kubeCache cache settings w
        = ⟨some err, w1, [Action.configFactoryForSettings Crd.ProxyCrd]⟩) ∧
    (∀ proxyFactory cfg1 w1 err cfg2 w2,
      env.ConfigFactoryForSettings settings cache kubeCache Crd.ProxyCrd none w
        = (.ok proxyFactory, cfg1, w1) →
      env.ConfigFactoryForSettings settings cache kubeCache Crd.SchemaCrd cfg1 w1
        = (.error err, cfg2, w2) →
      Setup env ctx kubeCache cache settings w
        = ⟨some err, w2, [Action.configFactoryForSettings Crd.ProxyCrd,
            Action.configFactoryForSettings Crd.SchemaCrd]⟩) ∧
    (∀ proxyFactory cfg1 w1 schemaFactory cfg2 w2 err cfg3 w3,
      env.ConfigFactoryForSettings settings cache kubeCache Crd.ProxyCrd none w
        = (.ok proxyFactory, cfg1, w1) →
      env.ConfigFactoryForSettings settings cache kubeCache Crd.SchemaCrd cfg1 w1
        = (.ok schemaFactory, cfg2, w2) →
      env.ConfigFactoryForSettings settings cache kubeCache Crd.ResolverMapCrd cfg2 w2
        = (.error err, cfg3, w3) →
      Setup env ctx kubeCache cache settings w
        = ⟨some err, w3, [Action.configFactoryForSettings Crd.ProxyCrd,
            Action.configFactoryForSettings Crd.SchemaCrd,
            Action.configFactoryForSettings Crd.ResolverMapCrd]⟩) ∧
    (∀ proxyFactory cfg1 w1 schemaFactory cfg2 w2 resolverMapFactory cfg3 w3 err,
      env.ConfigFactoryForSettings settings cache kubeCache Crd.ProxyCrd none w
        = (.ok proxyFactory, cfg1, w1) →
      env.ConfigFactoryForSettings settings cache kubeCache Crd.SchemaCrd cfg1 w1
        = (.ok schemaFactory, cfg2, w2) →
      env.ConfigFactoryForSettings settings cache kubeCache Crd.ResolverMapCrd cfg2 w2
        = (.ok resolverMapFactory, cfg3, w3) →
      env.DurationFromProto settings.RefreshRate = .error err →
      Setup env ctx kubeCache cache settings w
        = ⟨some err, w3, [Action.configFactoryForSettings Crd.ProxyCrd,
            Action.configFactoryForSettings Crd.SchemaCrd,
            Action.configFactoryForSettings Crd.ResolverMapCrd,
            Action.durationFromProto settings.RefreshRate]⟩) ∧
    (∀ proxyFactory cfg1 w1 schemaFactory cfg2 w2 resolverMapFactory cfg3 w3 refreshRate opts,
      env.ConfigFactoryForSettings settings cache kubeCache Crd.ProxyCrd none w
        = (.ok proxyFactory, cfg1, w1) →
      env.ConfigFactoryForSettings settings cache kubeCache Crd.SchemaCrd cfg1 w1
        = (.ok schemaFactory, cfg2, w2) →
      env.ConfigFactoryForSettings settings cache kubeCache Crd.ResolverMapCrd cfg2 w2
        = (.ok resolverMapFactory, cfg3, w3) →
      env.DurationFromProto settings.RefreshRate = .ok refreshRate →
      opts =
        { WriteNamespace := writeNamespace env settings
          WatchNamespaces := watchNamespaces settings.WatchNamespaces (writeNamespace env settings)
          Schemas := schemaFactory
          ResolverMaps := resolverMapFactory
          Proxies := proxyFactory
          WatchOpts := { Ctx := ctx, Selector := [], RefreshRate := refreshRate }
          DevMode := false
          SidecarAddr := "127.0.0.1" ++ ":" ++ toString env.SqoopSidecarBindPort } →
      Setup env ctx kubeCache cache settings w
        = ⟨(RunSqoop env opts w3).err, (RunSqoop env opts w3).world,
            [Action.configFactoryForSettings Crd.ProxyCrd,
              Action.configFactoryForSettings Crd.SchemaCrd,
              Action.configFactoryForSettings Crd.ResolverMapCrd,
              Action.durationFromProto settings.RefreshRate,
              Action.runSqoop opts] ++ (RunSqoop env opts w3).trace⟩) := by
  refine ⟨?_, ?_, ?_, ?_, ?_⟩
  · intro err cfg1 w1 h1
    simp [Setup, h1]
  · intro pf cfg1 w1 err cfg2 w2 h1 h2
    simp [Setup, h1, h2]
  · intro pf cfg1 w1 sf cfg2 w2 err cfg3 w3 h1 h2 h3
    simp [Setup, h1, h2, h3]
  · intro pf cfg1 w1 sf cfg2 w2 rf cfg3 w3 err h1 h2 h3 h4
    simp [Setup, h1, h2, h3, h4]
  · intro pf cfg1 w1 sf cfg2 w2 rf cfg3 w3 rr opts h1 h2 h3 h4 ho
    subst ho
    simp only [Setup, h1, h2, h3, h4]

/-- Witness for C7: when the schema factory cannot be built, `Setup` returns that
error after two factory calls and never calls `RunSqoop`. -/
theorem Setup_error_propagation_witness :
    Setup envSchemaFactoryFails ⟨0⟩ ⟨0⟩ ⟨0⟩ settingsA 0
      = ⟨some "schema: no config source", 2,
          [Action.configFactoryForSettings Crd.ProxyCrd,
            Action.configFactoryForSettings Crd.SchemaCrd]⟩ :=
  (Setup_error_propagation envSchemaFactoryFails ⟨0⟩ ⟨0⟩ ⟨0⟩ settingsA 0).2.1
    ⟨1⟩ (some ⟨7⟩) 1 "schema: no config source" (some ⟨7⟩) 2 rfl rfl

/-- C2: in `RunSqoop`, when one of the six client steps fails (proxy client
construction, proxy `Register`, schema client construction, schema `Register`,
resolver-map client construction, resolver-map `Register`, in that order) while
the earlier ones succeeded, `RunSqoop` returns the error of that step and has
performed exactly the client steps up to it: no later step, no goroutine, no
`eventLoop.Run`. Conversely a goroutine is started or `eventLoop.Run` is called
only after all six steps have succeeded. -/
theorem RunSqoop_client_failure {W : Type} (env : Env W) (opts : Opts) (w : W) :
    (∀ err w1,
      env.NewProxyClient opts.Proxies w = (.error err, w1) →
      RunSqoop env opts w = ⟨some err, w1, [Action.newProxyClient opts.Proxies]⟩) ∧
    (∀ pc w1 err w2,
      env.NewProxyClient opts.Proxies w = (.ok pc, w1) →
      env.ProxyRegister pc w1 = (some err, w2) →
      RunSqoop env opts w
        = ⟨some err, w2, [Action.newProxyClient opts.Proxies, Action.proxyRegister pc]⟩) ∧
    (∀ pc w1 w2 err w3,
      env.NewProxyClient opts.Proxies w = (.ok pc, w1) →
      env.ProxyRegister pc w1 = (none, w2) →
      env.NewSchemaClient opts.Schemas w2 = (.error err, w3) →
      RunSqoop env opts w
        = ⟨some err, w3, [Action.newProxyClient opts.Proxies, Action.proxyRegister pc,
            Action.newSchemaClient opts.Schemas]⟩) ∧
    (∀ pc w1 w2 sc w3 err w4,
      env.NewProxyClient opts.Proxies w = (.ok pc, w1) →
      env.ProxyRegister pc w1 = (none, w2) →
      env.NewSchemaClient opts.Schemas w2 = (.ok sc, w3) →
      env.SchemaRegister sc w3 = (some err, w4) →
      RunSqoop env opts w
        = ⟨some err, w4, [Action.newProxyClient opts.Proxies, Action.proxyRegister pc,
            Action.newSchemaClient opts.Schemas, Action.schemaRegister sc]⟩) ∧
    (∀ pc w1 w2 sc w3 w4 err w5,
      env.NewProxyClient opts.Proxies w = (.ok pc, w1) →
      env.ProxyRegister pc w1 = (none, w2) →
      env.NewSchemaClient opts.Schemas w2 = (.ok sc, w3) →
      env.SchemaRegister sc w3 = (none, w4) →
      env.NewResolverMapClient opts.ResolverMaps w4 = (.error err, w5) →
      RunSqoop env opts w
        = ⟨some err, w5, [Action.newProxyClient opts.Proxies, Action.proxyRegister pc,
            Action.newSchemaClient opts.Schemas, Action.schemaRegister sc,
            Action.newResolverMapClient opts.ResolverMaps]⟩) ∧
    (∀ pc w1 w2 sc w3 w4 rc w5 err w6,
      env.NewProxyClient opts.Proxies w = (.ok pc, w1) →
      env.ProxyRegister pc w1 = (none, w2) →
      env.NewSchemaClient opts.Schemas w2 = (.ok sc, w3) →
      env.SchemaRegister sc w3 = (none, w4) →
      env.NewResolverMapClient opts.ResolverMaps w4 = (.ok rc, w5) →
      env.ResolverMapRegister rc w5 = (some err, w6) →
      RunSqoop env opts w
        = ⟨some err, w6, [Action.newProxyClient opts.Proxies, Action.proxyRegister pc,
            Action.newSchemaClient opts.Schemas, Action.schemaRegister sc,
            Action.newResolverMapClient opts.ResolverMaps,
            Action.resolverMapRegister rc]⟩) ∧
    (∀ a ∈ (RunSqoop env opts w).trace,
      ((∃ t, a = Action.go t) ∨ (∃ loop nss wo, a = Action.eventLoopRun loop nss wo)) →
      ∃ pc w1 w2 sc w3 w4 rc w5 w6,
        env.NewProxyClient opts.Proxies w = (.ok pc, w1) ∧
        env.ProxyRegister pc w1 = (none, w2) ∧
        env.NewSchemaClient opts.Schemas w2 = (.ok sc, w3) ∧
        env.SchemaRegister sc w3 = (none, w4) ∧
        env.NewResolverMapClient opts.ResolverMaps w4 = (.ok rc, w5) ∧
        env.ResolverMapRegister rc w5 = (none, w6)) := by
  refine ⟨?_, ?_, ?_, ?_, ?_, ?_, ?_⟩
  · intro err w1 h1
    simp [RunSqoop, h1]
  · intro pc w1 err w2 h1 h2
    simp [RunSqoop, h1, h2]
  · intro pc w1 w2 err w3 h1 h2 h3
    simp [RunSqoop, h1, h2, h3]
  · intro pc w1 w2 sc w3 err w4 h1 h2 h3 h4
    simp [RunSqoop, h1, h2, h3, h4]
  · intro pc w1 w2 sc w3 w4 err w5 h1 h2 h3 h4 h5
    simp [RunSqoop, h1, h2, h3, h4, h5]
  · intro pc w1 w2 sc w3 w4 rc w5 err w6 h1 h2 h3 h4 h5 h6
    simp [RunSqoop, h1, h2, h3, h4, h5, h6]
  · intro a ha hkind
    unfold RunSqoop at ha
    simp only [] at ha
    split at ha
    · rcases hkind with ⟨t, rfl⟩ | ⟨l, n, o, rfl⟩ <;> simp at ha
    rename_i pc w1 h1
    split at ha
    · rcases hkind with ⟨t, rfl⟩ | ⟨l, n, o, rfl⟩ <;> simp at ha
    rename_i w2 h2
    split at ha
    · rcases hkind with ⟨t, rfl⟩ | ⟨l, n, o, rfl⟩ <;> simp at ha
    rename_i sc w3 h3
    split at ha
    · rcases hkind with ⟨t, rfl⟩ | ⟨l, n, o, rfl⟩ <;> simp at ha
    rename_i w4 h4
    split at ha
    · rcases hkind with ⟨t, rfl⟩ | ⟨l, n, o, rfl⟩ <;> simp at ha
    rename_i rc w5 h5
    split at ha
    · rcases hkind with ⟨t, rfl⟩ | ⟨l, n, o, rfl⟩ <;> simp at ha
    rename_i w6 h6
    exact ⟨pc, w1, w2, sc, w3, w4, rc, w5, w6, h1, h2, h3, h4, h5, h6⟩

/-- Witness for C2: when registering the schema kind fails, `RunSqoop` returns
that error after four client steps and does nothing else. -/
theorem RunSqoop_client_failure_witness :
    RunSqoop envSchemaRegisterFails optsDirect 0
      = ⟨some "schema: register failed", 4,
          [Action.newProxyClient ⟨1⟩, Action.proxyRegister ⟨1⟩,
            Action.newSchemaClient ⟨2⟩, Action.schemaRegister ⟨2⟩]⟩ :=
  (RunSqoop_client_failure envSchemaRegisterFails optsDirect 0).2.2.2.1
    ⟨1⟩ 1 2 ⟨2⟩ 3 "schema: register failed" 4 rfl rfl rfl rfl

/-! ## What `RunSqoop` hands to the event loop and to its goroutines -/

theorem RunSqoop_eventLoopRun_mem {W : Type} (env : Env W) (opts : Opts) (w : W)
    (loop : ApiEventLoop) (nss : List String) (wo : WatchOpts)
    (h : Action.eventLoopRun loop nss wo ∈ (RunSqoop env opts w).trace) :
    nss = opts.WatchNamespaces ∧ loop.syncer.writeNamespace = opts.WriteNamespace ∧
      loop.syncer.writeErrs = ErrChan.made ∧
      wo.Ctx = env.WithLogger (env.WithDefaults opts.WatchOpts).Ctx "gateway" := by
  unfold RunSqoop at h
  simp only [] at h
  repeat' split at h
  all_goals simp at h
  all_goals
    obtain ⟨rfl, rfl, rfl⟩ := h
    exact ⟨rfl, rfl, rfl, rfl⟩

theorem RunSqoop_go_mem {W : Type} (env : Env W) (opts : Opts) (w : W) (t : Task)
    (h : Action.go t ∈ (RunSqoop env opts w).trace) :
    t = Task.server (env.WithLogger (env.WithDefaults opts.WatchOpts).Ctx "gateway")
          env.SqoopServerBindPort Router.new ∨
    (∃ src, t = Task.aggregateErrs (env.WithLogger (env.WithDefaults opts.WatchOpts).Ctx "gateway")
          ErrChan.made src "event_loop") ∨
    t = Task.errorLogger (env.WithLogger (env.WithDefaults opts.WatchOpts).Ctx "gateway")
          ErrChan.made (env.WithLogger (env.WithDefaults opts.WatchOpts).Ctx "gateway") := by
  unfold RunSqoop at h
  simp only [] at h
  repeat' split at h
  all_goals simp at h
  · exact Or.inl h
  · rcases h with h | h | h
    · exact Or.inl h
    · exact Or.inr (Or.inl ⟨_, h⟩)
    · exact Or.inr (Or.inr h)

theorem RunSqoop_trace_of_nil {W : Type} (env : Env W) (opts : Opts) (w : W)
    (h : (RunSqoop env opts w).err = none) :
    ∃ pc sc rc loop src,
      (RunSqoop env opts w).trace =
        [Action.newProxyClient opts.Proxies, Action.proxyRegister pc,
          Action.newSchemaClient opts.Schemas, Action.schemaRegister sc,
          Action.newResolverMapClient opts.ResolverMaps, Action.resolverMapRegister rc,
          Action.go (Task.server (env.WithLogger (env.WithDefaults opts.WatchOpts).Ctx "gateway")
            env.SqoopServerBindPort Router.new),
          Action.eventLoopRun loop opts.WatchNamespaces
            { env.WithDefaults opts.WatchOpts with
              Ctx := env.WithLogger (env.WithDefaults opts.WatchOpts).Ctx "gateway" },
          Action.go (Task.aggregateErrs
            (env.WithLogger (env.WithDefaults opts.WatchOpts).Ctx "gateway")
            ErrChan.made src "event_loop"),
          Action.go (Task.errorLogger
            (env.WithLogger (env.WithDefaults opts.WatchOpts).Ctx "gateway")
            ErrChan.made (env.WithLogger (env.WithDefaults opts.WatchOpts).Ctx "gateway"))] := by
  rcases h1 : env.NewProxyClient opts.Proxies w with ⟨_ | pc, w1⟩
  · simp [RunSqoop, h1] at h
  rcases h2 : env.ProxyRegister pc w1 with ⟨_ | _, w2⟩
  swap
  · simp [RunSqoop, h1, h2] at h
  rcases h3 : env.NewSchemaClient opts.Schemas w2 with ⟨_ | sc, w3⟩
  · simp [RunSqoop, h1, h2, h3] at h
  rcases h4 : env.SchemaRegister sc w3 with ⟨_ | _, w4⟩
  swap
  · simp [RunSqoop, h1, h2, h3, h4] at h
  rcases h5 : env.NewResolverMapClient opts.ResolverMaps w4 with ⟨_ | rc, w5⟩
  · simp [RunSqoop, h1, h2, h3, h4, h5] at h
  rcases h6 : env.ResolverMapRegister rc w5 with ⟨_ | _, w6⟩
  swap
  · simp [RunSqoop, h1, h2, h3, h4, h5, h6] at h
  rcases h7 : env.EventLoopRun
      ⟨⟨rc, sc⟩, ⟨opts.WriteNamespace,
        ⟨"sqoop", [BaseClient.ofResolverMap rc, BaseClient.ofSchema sc]⟩, ErrChan.made, ⟨pc⟩,
        rc, ⟨opts.SidecarAddr⟩, Router.new⟩⟩
      opts.WatchNamespaces
      { env.WithDefaults opts.WatchOpts with
        Ctx := env.WithLogger (env.WithDefaults opts.WatchOpts).Ctx "gateway" } w6
    with ⟨_ | src, w7⟩
  · simp [RunSqoop, h1, h2, h3, h4, h5, h6, h7] at h
  refine ⟨pc, sc, rc,
    ⟨⟨rc, sc⟩, ⟨opts.WriteNamespace,
      ⟨"sqoop", [BaseClient.ofResolverMap rc, BaseClient.ofSchema sc]⟩, ErrChan.made, ⟨pc⟩,
      rc, ⟨opts.SidecarAddr⟩, Router.new⟩⟩, src, ?_⟩
  simp only [RunSqoop, h1, h2, h3, h4, h5, h6, h7]

theorem Setup_trace_mem {W : Type} (env : Env W) (ctx : Context) (kubeCache : SharedCache)
    (cache : InMemoryResourceCache) (settings : Settings) (w : W) (a : Action)
    (h : a ∈ (Setup env ctx kubeCache cache settings w).trace)
    (hkind : (∃ t, a = Action.go t) ∨ (∃ loop nss wo, a = Action.eventLoopRun loop nss wo)) :
    ∃ opts w3, Action.runSqoop opts ∈ (Setup env ctx kubeCache cache settings w).trace ∧
      a ∈ (RunSqoop env opts w3).trace := by
  rcases h1 : env.ConfigFactoryForSettings settings cache kubeCache Crd.ProxyCrd none w
    with ⟨_ | pf, cfg1, w1⟩
  · rcases hkind with ⟨t, rfl⟩ | ⟨l, n, o, rfl⟩ <;> simp [Setup, h1] at h
  rcases h2 : env.ConfigFactoryForSettings settings cache kubeCache Crd.SchemaCrd cfg1 w1
    with ⟨_ | sf, cfg2, w2⟩
  · rcases hkind with ⟨t, rfl⟩ | ⟨l, n, o, rfl⟩ <;> simp [Setup, h1, h2] at h
  rcases h3 : env.ConfigFactoryForSettings settings cache kubeCache Crd.ResolverMapCrd cfg2 w2
    with ⟨_ | rf, cfg3, w3⟩
  · rcases hkind with ⟨t, rfl⟩ | ⟨l, n, o, rfl⟩ <;> simp [Setup, h1, h2, h3] at h
  rcases h4 : env.DurationFromProto settings.RefreshRate with _ | rr
  · rcases hkind with ⟨t, rfl⟩ | ⟨l, n, o, rfl⟩ <;> simp [Setup, h1, h2, h3, h4] at h
  simp only [Setup, h1, h2, h3, h4] at h ⊢
  rcases List.mem_append.1 h with h5 | h5
  · rcases hkind with ⟨t, rfl⟩ | ⟨l, n, o, rfl⟩ <;> simp at h5
  · exact ⟨_, w3, List.mem_append_left _ (by simp), h5⟩

/-- C5, the claim refuted as stated: `RunSqoop`, called directly with options
whose watch list is `["default"]` and whose write namespace is `gloo-system`,
succeeds and hands `eventLoop.Run` the list `["default"]`, which does not
contain the write namespace. -/
theorem RunSqoop_direct_opts_omit_writeNamespace :
    (RunSqoop envOk optsDirect 0).err = none ∧
      runNamespaces (RunSqoop envOk optsDirect 0).trace = [["default"]] ∧
      optsDirect.WriteNamespace = "gloo-system" ∧
      optsDirect.WriteNamespace ∉ ["default"] := by
  decide

/-- C5, amended: `RunSqoop` hands `eventLoop.Run` exactly `opts.WatchNamespaces`,
unchanged, and builds the syncer for `opts.WriteNamespace`; so the list contains
the write namespace whenever `opts.WatchNamespaces` does, and it always does
when `RunSqoop` is reached through `Setup`. When `RunSqoop` returns nil,
`eventLoop.Run` has been called. -/
theorem RunSqoop_watch_list {W : Type} (env : Env W) (opts : Opts) (w : W) :
    (∀ loop nss wo, Action.eventLoopRun loop nss wo ∈ (RunSqoop env opts w).trace →
      nss = opts.WatchNamespaces ∧ loop.syncer.writeNamespace = opts.WriteNamespace ∧
        (opts.WriteNamespace ∈ opts.WatchNamespaces → loop.syncer.writeNamespace ∈ nss)) ∧
    ((RunSqoop env opts w).err = none →
      ∃ loop wo, Action.eventLoopRun loop opts.WatchNamespaces wo ∈ (RunSqoop env opts w).trace ∧
        loop.syncer.writeNamespace = opts.WriteNamespace) ∧
    (∀ ctx kubeCache cache settings loop nss wo,
      Action.eventLoopRun loop nss wo ∈ (Setup env ctx kubeCache cache settings w).trace →
      loop.syncer.writeNamespace ∈ nss) := by
  refine ⟨?_, ?_, ?_⟩
  · intro loop nss wo h
    obtain ⟨h1, h2, _, _⟩ := RunSqoop_eventLoopRun_mem env opts w loop nss wo h
    refine ⟨h1, h2, ?_⟩
    intro hm
    rw [h1, h2]
    exact hm
  · intro h
    obtain ⟨pc, sc, rc, loop, src, ht⟩ := RunSqoop_trace_of_nil env opts w h
    have hm : Action.eventLoopRun loop opts.WatchNamespaces
          { env.WithDefaults opts.WatchOpts with
            Ctx := env.WithLogger (env.WithDefaults opts.WatchOpts).Ctx "gateway" }
        ∈ (RunSqoop env opts w).trace := by
      rw [ht]
      simp only [List.mem_cons, true_or, or_true]
    exact ⟨loop, _, hm, (RunSqoop_eventLoopRun_mem env opts w _ _ _ hm).2.1⟩
  · intro ctx kubeCache cache settings loop nss wo h
    obtain ⟨o, w3, ho, hr⟩ :=
      Setup_trace_mem env ctx kubeCache cache settings w _ h (Or.inr ⟨loop, nss, wo, rfl⟩)
    obtain ⟨h1, h2, _, _⟩ := RunSqoop_eventLoopRun_mem env o w3 loop nss wo hr
    rw [h1, h2]
    obtain ⟨pf, sf, rf, rr, _, rfl⟩ := Setup_runSqoop_opts env ctx kubeCache cache settings w o ho
    exact mem_watchNamespaces _ _

/-- C8: one context governs the run. The context `Setup` receives is the one it
stores in `Opts.WatchOpts.Ctx`, and the refresh rate it stores is the converted
`settings.RefreshRate`. In `RunSqoop` the context given to `eventLoop.Run`, the
context given to `AggregateErrs`, the context whose `Done` the logging goroutine
waits on and the contexts the loggers are taken from are all the one context
`WithLogger(opts.WatchOpts.WithDefaults().Ctx, "gateway")`; when `RunSqoop`
returns nil all three of these uses have happened. -/
theorem single_governing_context {W : Type} (env : Env W) (w : W) :
    (∀ ctx kubeCache cache settings opts,
      Action.runSqoop opts ∈ (Setup env ctx kubeCache cache settings w).trace →
      opts.WatchOpts.Ctx = ctx ∧
        env.DurationFromProto settings.RefreshRate = .ok opts.WatchOpts.RefreshRate) ∧
    (∀ opts loop nss wo, Action.eventLoopRun loop nss wo ∈ (RunSqoop env opts w).trace →
      wo.Ctx = env.WithLogger (env.WithDefaults opts.WatchOpts).Ctx "gateway") ∧
    (∀ opts ctx dest src info,
      Action.go (Task.aggregateErrs ctx dest src info) ∈ (RunSqoop env opts w).trace →
      ctx = env.WithLogger (env.WithDefaults opts.WatchOpts).Ctx "gateway") ∧
    (∀ opts loggerCtx ch doneCtx,
      Action.go (Task.errorLogger loggerCtx ch doneCtx) ∈ (RunSqoop env opts w).trace →
      doneCtx = env.WithLogger (env.WithDefaults opts.WatchOpts).Ctx "gateway" ∧
        loggerCtx = doneCtx) ∧
    (∀ opts loggerCtx port rtr,
      Action.go (Task.server loggerCtx port rtr) ∈ (RunSqoop env opts w).trace →
      loggerCtx = env.WithLogger (env.WithDefaults opts.WatchOpts).Ctx "gateway") ∧
    (∀ opts, (RunSqoop env opts w).err = none →
      ∃ ctx loop wo src,
        ctx = env.WithLogger (env.WithDefaults opts.WatchOpts).Ctx "gateway" ∧ wo.Ctx = ctx ∧
        Action.eventLoopRun loop opts.WatchNamespaces wo ∈ (RunSqoop env opts w).trace ∧
        Action.go (Task.aggregateErrs ctx ErrChan.made src "event_loop")
          ∈ (RunSqoop env opts w).trace ∧
        Action.go (Task.errorLogger ctx ErrChan.made ctx) ∈ (RunSqoop env opts w).trace) := by
  refine ⟨?_, ?_, ?_, ?_, ?_, ?_⟩
  · intro ctx kubeCache cache settings opts h
    obtain ⟨pf, sf, rf, rr, hd, rfl⟩ :=
      Setup_runSqoop_opts env ctx kubeCache cache settings w opts h
    exact ⟨rfl, hd⟩
  · intro opts loop nss wo h
    exact (RunSqoop_eventLoopRun_mem env opts w loop nss wo h).2.2.2
  · intro opts ctx dest src info h
    rcases RunSqoop_go_mem env opts w _ h with h1 | ⟨s, h1⟩ | h1
    · cases h1
    · cases h1; rfl
    · cases h1
  · intro opts loggerCtx ch doneCtx h
    rcases RunSqoop_go_mem env opts w _ h with h1 | ⟨s, h1⟩ | h1
    · cases h1
    · cases h1
    · cases h1; exact ⟨rfl, rfl⟩
  · intro opts loggerCtx port rtr h
    rcases RunSqoop_go_mem env opts w _ h with h1 | ⟨s, h1⟩ | h1
    · cases h1; rfl
    · cases h1
    · cases h1
  · intro opts h
    obtain ⟨pc, sc, rc, loop, src, ht⟩ := RunSqoop_trace_of_nil env opts w h
    refine ⟨_, loop, { env.WithDefaults opts.WatchOpts with
        Ctx := env.WithLogger (env.WithDefaults opts.WatchOpts).Ctx "gateway" }, src,
      rfl, rfl, ?_, ?_, ?_⟩
    all_goals
      rw [ht]
      simp only [List.mem_cons, true_or, or_true]

/-- Witness for C8: in `envOk`, `Setup` called with context `⟨0⟩` passes options
that carry context `⟨0⟩` and the refresh rate of one second converted from the
settings. -/
theorem single_governing_context_witness :
    optsA.WatchOpts.Ctx = ⟨0⟩ ∧
      envOk.DurationFromProto settingsA.RefreshRate = .ok optsA.WatchOpts.RefreshRate :=
  (single_governing_context envOk 0).1 ⟨0⟩ ⟨0⟩ ⟨0⟩ settingsA optsA (by decide)

/-! ## The logging goroutine -/

theorem loggerTask_of_returned (sels : List Selected) (s : LoggerState)
    (h : s.returned = true) : loggerTask sels s = s := by
  cases sels with
  | nil => rfl
  | cons sel rest => simp [loggerTask, h]

theorem loggerTask_append (a b : List Selected) (s : LoggerState) :
    loggerTask (a ++ b) s = loggerTask b (loggerTask a s) := by
  induction a generalizing s with
  | nil => rfl
  | cons sel rest ih =>
    by_cases h : s.returned = true
    · rw [loggerTask_of_returned _ _ h, loggerTask_of_returned _ _ h,
        loggerTask_of_returned _ _ h]
    · simp [loggerTask, h, ih]

theorem loggerTask_recvs (errs : List Err) (s : LoggerState) (h : s.returned = false) :
    loggerTask (errs.map Selected.recv) s
      = { s with log := s.log ++ errs.map fun err => ⟨Level.error, "error: %v", err⟩ } := by
  induction errs generalizing s with
  | nil => simp [loggerTask]
  | cons err rest ih =>
    have h2 : (loggerIter (Selected.recv err) s).returned = false := h
    simp only [List.map_cons, loggerTask, h, Bool.false_eq_true, if_false]
    rw [ih _ h2]
    simp [loggerIter, h]

theorem loggerTask_returned (sels : List Selected) (s : LoggerState)
    (h : (loggerTask sels s).returned = true) : s.returned = true ∨ Selected.done ∈ sels := by
  induction sels generalizing s with
  | nil => exact Or.inl h
  | cons sel rest ih =>
    by_cases hr : s.returned = true
    · exact Or.inl hr
    · simp only [loggerTask, hr] at h
      cases sel with
      | done => exact Or.inr (List.mem_cons_self _ _)
      | recv err =>
        rcases ih _ h with h2 | h2
        · exact absurd h2 hr
        · exact Or.inr (List.mem_cons_of_mem _ h2)

theorem loggerTask_no_fatal (sels : List Selected) (s : LoggerState)
    (h : processExits s.log = false) : processExits (loggerTask sels s).log = false := by
  induction sels generalizing s with
  | nil => exact h
  | cons sel rest ih =>
    by_cases hr : s.returned = true
    · simp [loggerTask, hr, h]
    · simp only [loggerTask, hr]
      apply ih
      cases sel with
      | done => exact h
      | recv err =>
        simp only [processExits, loggerIter, List.any_append]
        simp only [processExits] at h
        simp [h]

/-- C4: for every finite sequence of errors the logging goroutine receives on
`writeErrs` before its `select` takes the `Done` case, it logs each of them
once, at error level, in the order received, and is still running afterwards
with the channel open; none of these entries ends the process. When the `Done`
case is then taken it closes the channel and returns, and it never returns
without the `Done` case having been taken. -/
theorem loggerTask_logs_each_error (errs : List Err) :
    (loggerTask (errs.map Selected.recv) LoggerState.start).log
      = errs.map (fun err => ⟨Level.error, "error: %v", err⟩) ∧
    loggedErrs (loggerTask (errs.map Selected.recv) LoggerState.start).log = errs ∧
    (loggerTask (errs.map Selected.recv) LoggerState.start).returned = false ∧
    (loggerTask (errs.map Selected.recv) LoggerState.start).closed = false ∧
    processExits (loggerTask (errs.map Selected.recv) LoggerState.start).log = false ∧
    loggerTask (errs.map Selected.recv ++ [Selected.done]) LoggerState.start
      = ⟨errs.map (fun err => ⟨Level.error, "error: %v", err⟩), true, true⟩ ∧
    (∀ sels, (loggerTask sels LoggerState.start).returned = true → Selected.done ∈ sels) := by
  have hs : LoggerState.start.returned = false := rfl
  have h1 := loggerTask_recvs errs LoggerState.start hs
  refine ⟨?_, ?_, ?_, ?_, ?_, ?_, ?_⟩
  · rw [h1]; simp [LoggerState.start]
  · rw [h1]; simp [LoggerState.start, loggedErrs, Function.comp_def]
  · rw [h1]; rfl
  · rw [h1]; rfl
  · exact loggerTask_no_fatal _ _ rfl
  · rw [loggerTask_append, h1]
    simp [loggerTask, loggerIter, LoggerState.start]
  · intro sels h
    rcases loggerTask_returned sels _ h with h2 | h2
    · cases h2
    · exact h2

/-! ## Shutdown of `writeErrs` -/

theorem step_consistent (ev : Event) (s s1 : ChanState) (hc : s.Consistent)
    (h : step ev s = some s1) :
    s1.Consistent ∧ s1.held.Sublist (s.held ++ sends [ev]) ∧
      (hasAbandon [ev] = false → s1.held = s.held ++ sends [ev]) := by
  obtain ⟨inFlight, received, sentOnClosed, cancelled, logger, panicked⟩ := s
  obtain ⟨c1, c2, c3, c4⟩ := hc
  simp only at c1 c2 c3 c4
  cases panicked with
  | true => simp [step] at h
  | false =>
  cases ev with
  | send err =>
    by_cases hcl : logger.closed = true
    · simp only [step, Bool.false_eq_true, if_false, hcl, if_true, Option.some.injEq] at h
      subst h
      refine ⟨⟨c1, c2, fun hf => ?_, c4⟩, ?_, fun _ => ?_⟩
      · have hf2 : logger.closed = false := hf
        rw [hcl] at hf2
        cases hf2
      · simp [ChanState.held, sends]
      · simp [ChanState.held, sends]
    · have hcf : logger.closed = false := by simpa using hcl
      simp only [step, hcf, Bool.false_eq_true, if_false, Option.some.injEq] at h
      subst h
      refine ⟨⟨c1, c2, c3, c4⟩, ?_, fun _ => ?_⟩
      · simp [ChanState.held, sends, (c3 hcf).1]
      · simp [ChanState.held, sends, (c3 hcf).1]
  | abandon i =>
    by_cases hi : i < inFlight.length
    · simp only [step, Bool.false_eq_true, if_false, hi, if_true, Option.some.injEq] at h
      subst h
      refine ⟨⟨c1, c2, c3, c4⟩, ?_, fun hf => ?_⟩
      · simp only [ChanState.held, sends, List.append_nil]
        exact List.Sublist.append
          (List.Sublist.append (List.Sublist.refl _) (List.eraseIdx_sublist _ _))
          (List.Sublist.refl _)
      · simp [hasAbandon] at hf
    · simp [step, hi] at h
  | cancel =>
    simp only [step, Bool.false_eq_true, if_false, Option.some.injEq] at h
    subst h
    refine ⟨⟨c1, fun _ => rfl, c3, c4⟩, ?_, fun _ => ?_⟩
    · simp [ChanState.held, sends]
    · simp [ChanState.held, sends]
  | loggerRecv =>
    by_cases hr : logger.returned = true
    · simp [step, hr] at h
    · have hrf : logger.returned = false := by simpa using hr
      cases inFlight with
      | nil => simp [step, hrf] at h
      | cons err rest =>
        simp only [step, hrf, Bool.false_eq_true, if_false, Option.some.injEq] at h
        subst h
        refine ⟨⟨c1, c2, c3, ?_⟩, ?_, fun _ => ?_⟩
        · simp [loggerIter, c4]
        · simp [ChanState.held, sends]
        · simp [ChanState.held, sends]
  | loggerDone =>
    by_cases hr : logger.returned = true
    · simp [step, hr] at h
    · have hrf : logger.returned = false := by simpa using hr
      by_cases hcan : cancelled = true
      · simp only [step, hrf, Bool.false_eq_true, if_false, hcan, if_true,
          Option.some.injEq] at h
        subst h
        refine ⟨⟨rfl, fun _ => rfl, fun hf => ?_, c4⟩, ?_, fun _ => ?_⟩
        · simp [loggerIter] at hf
        · simp [ChanState.held, sends]
        · simp [ChanState.held, sends]
      · simp [step, hrf, hcan] at h

theorem sends_cons (ev : Event) (rest : List Event) :
    sends (ev :: rest) = sends [ev] ++ sends rest := by
  cases ev <;> simp [sends]

theorem hasAbandon_cons (ev : Event) (rest : List Event) (h : hasAbandon (ev :: rest) = false) :
    hasAbandon [ev] = false ∧ hasAbandon rest = false := by
  cases ev <;> simp_all [hasAbandon]

theorem run_consistent (evs : List Event) (s s1 : ChanState) (hc : s.Consistent)
    (h : run evs s = some s1) :
    s1.Consistent ∧ s1.held.Sublist (s.held ++ sends evs) ∧
      (hasAbandon evs = false → s1.held = s.held ++ sends evs) := by
  induction evs generalizing s with
  | nil =>
    simp only [run, Option.some.injEq] at h
    subst h
    exact ⟨hc, by simp [sends], fun _ => by simp [sends]⟩
  | cons ev rest ih =>
    cases hs : step ev s with
    | none => simp [run, hs] at h
    | some s2 =>
      simp only [run, hs] at h
      obtain ⟨hc2, hsub2, heq2⟩ := step_consistent ev s s2 hc hs
      obtain ⟨hc1, hsub1, heq1⟩ := ih s2 hc2 h
      refine ⟨hc1, hsub1.trans ?_, fun ha => ?_⟩
      · rw [sends_cons, ← List.append_assoc]
        exact List.Sublist.append hsub2 (List.Sublist.refl _)
      · obtain ⟨ha1, ha2⟩ := hasAbandon_cons ev rest ha
        rw [heq1 ha2, heq2 ha1, sends_cons ev rest, List.append_assoc]

theorem step_after_close (ev : Event) (s s1 : ChanState) (hr : s.logger.returned = true)
    (h : step ev s = some s1) :
    s1.logger = s.logger ∧ s1.received = s.received := by
  obtain ⟨inFlight, received, sentOnClosed, cancelled, logger, panicked⟩ := s
  simp only at hr
  cases panicked with
  | true => simp [step] at h
  | false =>
  cases ev with
  | send err =>
    by_cases hcl : logger.closed = true
    · simp only [step, Bool.false_eq_true, if_false, hcl, if_true, Option.some.injEq] at h
      subst h
      exact ⟨rfl, rfl⟩
    · have hcf : logger.closed = false := by simpa using hcl
      simp only [step, hcf, Bool.false_eq_true, if_false, Option.some.injEq] at h
      subst h
      exact ⟨rfl, rfl⟩
  | abandon i =>
    by_cases hi : i < inFlight.length
    · simp only [step, Bool.false_eq_true, if_false, hi, if_true, Option.some.injEq] at h
      subst h
      exact ⟨rfl, rfl⟩
    · simp [step, hi] at h
  | cancel =>
    simp only [step, Bool.false_eq_true, if_false, Option.some.injEq] at h
    subst h
    exact ⟨rfl, rfl⟩
  | loggerRecv => simp [step, hr] at h
  | loggerDone => simp [step, hr] at h

theorem run_after_close (evs : List Event) (s s1 : ChanState) (hr : s.logger.returned = true)
    (h : run evs s = some s1) :
    s1.logger = s.logger ∧ s1.received = s.received := by
  induction evs generalizing s with
  | nil =>
    simp only [run, Option.some.injEq] at h
    subst h
    exact ⟨rfl, rfl⟩
  | cons ev rest ih =>
    cases hs : step ev s with
    | none => simp [run, hs] at h
    | some s2 =>
      simp only [run, hs] at h
      obtain ⟨h1, h2⟩ := step_after_close ev s s2 hr hs
      obtain ⟨h3, h4⟩ := ih s2 (by rw [h1]; exact hr) h
      exact ⟨h3.trans h1, h4.trans h2⟩

/-- C3, the claim refuted as stated: a task begins sending `boom` on `writeErrs`,
then the context is cancelled, then the `select` of the logging goroutine takes
the `Done` case. The channel is now closed while the send of `boom`, begun before
the cancellation, is still in flight: `boom` was never received, nothing has been
logged, and the blocked sender panics. -/
theorem writeErrs_closed_with_send_in_flight :
    run [Event.send "boom", Event.cancel, Event.loggerDone] ChanState.start
      = some ⟨["boom"], [], [], true, ⟨[], true, true⟩, true⟩ := by
  decide

/-- C3, amended: the logging goroutine closes `writeErrs` when its `select` takes
the `Done` case; the close does not wait for sends still in flight. In every
reachable state the channel is closed only after the context was cancelled and
exactly when the logging goroutine has returned; while it is open no send has
been refused. The log is exactly the list of the errors the channel handed to
the logging goroutine: each is logged once, at error level, in the order
received. These errors are errors that were sent, received in sending order, and
unless a sender gave its send up every error sent is either received, still in
flight, or was sent on the closed channel. From a state in which the channel is
closed on, the logging goroutine receives and logs nothing more. -/
theorem writeErrs_shutdown (evs : List Event) (s : ChanState)
    (h : run evs ChanState.start = some s) :
    (s.logger.closed = true → s.cancelled = true) ∧
    s.logger.closed = s.logger.returned ∧
    (s.logger.closed = false → s.sentOnClosed = [] ∧ s.panicked = false) ∧
    s.logger.log = s.received.map (fun err => ⟨Level.error, "error: %v", err⟩) ∧
    loggedErrs s.logger.log = s.received ∧
    (s.received ++ s.inFlight ++ s.sentOnClosed).Sublist (sends evs) ∧
    (hasAbandon evs = false → s.received ++ s.inFlight ++ s.sentOnClosed = sends evs) ∧
    (∀ more s2, s.logger.closed = true → run more s = some s2 →
      s2.logger = s.logger ∧ s2.received = s.received) := by
  have hstart : ChanState.start.Consistent := by
    refine ⟨rfl, ?_, ?_, rfl⟩
    · intro hf
      exact absurd hf (by decide)
    · intro _
      exact ⟨rfl, rfl⟩
  obtain ⟨⟨c1, c2, c3, c4⟩, hsub, heq⟩ := run_consistent evs _ s hstart h
  refine ⟨c2, c1, c3, c4, ?_, ?_, ?_, ?_⟩
  · rw [c4]
    simp [loggedErrs, Function.comp_def]
  · simpa [ChanState.held, ChanState.start] using hsub
  · intro ha
    simpa [ChanState.held, ChanState.start] using heq ha
  · intro more s2 hcl h2
    exact run_after_close more s s2 (c1 ▸ hcl) h2

/-- Witness for C3: `e1` is sent, received and logged, the context is cancelled
and the logging goroutine closes the channel; a send of `late` begun after that
is made on the closed channel. The log holds `e1` alone, and the three lists
account for both sends. -/
theorem writeErrs_shutdown_witness :
    run [Event.send "e1", Event.loggerRecv, Event.cancel, Event.loggerDone, Event.send "late"]
        ChanState.start
      = some ⟨[], ["e1"], ["late"], true, ⟨[⟨Level.error, "error: %v", "e1"⟩], true, true⟩,
          true⟩ ∧
    loggedErrs [⟨Level.error, "error: %v", "e1"⟩] = ["e1"] ∧
    ["e1"] ++ [] ++ ["late"] = ["e1", "late"] :=
  ⟨by decide,
    (writeErrs_shutdown
      [Event.send "e1", Event.loggerRecv, Event.cancel, Event.loggerDone, Event.send "late"]
      ⟨[], ["e1"], ["late"], true, ⟨[⟨Level.error, "error: %v", "e1"⟩], true, true⟩, true⟩
      (by decide)).2.2.2.2.1,
    (writeErrs_shutdown
      [Event.send "e1", Event.loggerRecv, Event.cancel, Event.loggerDone, Event.send "late"]
      ⟨[], ["e1"], ["late"], true, ⟨[⟨Level.error, "error: %v", "e1"⟩], true, true⟩, true⟩
      (by decide)).2.2.2.2.2.2.1 (by decide)⟩

/-! ## Failures after start-up -/

/-- C6, the claim refuted as stated: `RunSqoop` returns nil and has started the
server goroutine; when the serve call of that goroutine then fails because the
port is taken, the goroutine logs the failure with `Fatalf`, which ends the
process. -/
theorem server_failure_after_startup_exits :
    (RunSqoop envOk optsDirect 0).err = none ∧
      tasksStarted (RunSqoop envOk optsDirect 0).trace
        = [Task.server ⟨100⟩ 9095 Router.new,
            Task.aggregateErrs ⟨100⟩ ErrChan.made (ErrChan.eventLoopErrs 0) "event_loop",
            Task.errorLogger ⟨100⟩ ErrChan.made ⟨100⟩] ∧
      serverTask 9095 Router.new serveFails
        = [⟨Level.info, "starting graphql server on %d", "9095"⟩,
            ⟨Level.fatal, "failed starting sqoop server: %v",
              "listen tcp :9095: bind: address already in use"⟩] ∧
      processExits (serverTask 9095 Router.new serveFails) = true := by
  decide

/-- C6, amended: once `RunSqoop` has returned nil it has started three
goroutines: the server, the aggregator and the logging goroutine. No error
received on the error channel ends the process, the logging goroutine only logs
it at error level. A failure of the HTTP serve call is logged with `Fatalf` and
ends the process; the server goroutine ends the process in no other case. -/
theorem failures_after_startup {W : Type} (env : Env W) (opts : Opts) (w : W) :
    ((RunSqoop env opts w).err = none →
      ∃ ctx src, tasksStarted (RunSqoop env opts w).trace
        = [Task.server ctx env.SqoopServerBindPort Router.new,
            Task.aggregateErrs ctx ErrChan.made src "event_loop",
            Task.errorLogger ctx ErrChan.made ctx]) ∧
    (∀ sels, processExits (loggerTask sels LoggerState.start).log = false) ∧
    (∀ port rtr listenAndServe err, listenAndServe (":" ++ toString port) rtr = some err →
      serverTask port rtr listenAndServe
          = [⟨Level.info, "starting graphql server on %d", toString port⟩,
              ⟨Level.fatal, "failed starting sqoop server: %v", err⟩] ∧
        processExits (serverTask port rtr listenAndServe) = true) ∧
    (∀ port rtr listenAndServe, listenAndServe (":" ++ toString port) rtr = none →
      processExits (serverTask port rtr listenAndServe) = false) := by
  refine ⟨?_, ?_, ?_, ?_⟩
  · intro h
    obtain ⟨pc, sc, rc, loop, src, ht⟩ := RunSqoop_trace_of_nil env opts w h
    exact ⟨_, src, by rw [ht]; rfl⟩
  · intro sels
    exact loggerTask_no_fatal sels _ rfl
  · intro port rtr listenAndServe err h
    simp [serverTask, h, processExits]
  · intro port rtr listenAndServe h
    simp [serverTask, h, processExits]

/-! ## Instances at concrete inputs -/

/-- Witness for C9: the configured list `default, team-a` lacks the write
namespace `sqoop-system`, which is appended as the last element. -/
theorem watchNamespaces_spec_witness :
    watchNamespaces ["default", "team-a"] "sqoop-system"
      = ["default", "team-a"] ++ ["sqoop-system"] :=
  (watchNamespaces_spec ["default", "team-a"] "sqoop-system").2.1 (by decide)

/-- Witness for C5: called with the options `Setup` builds from `settingsA`,
`RunSqoop` returns nil and has handed `eventLoop.Run` the watch list of the
options, with a syncer for their write namespace. -/
theorem RunSqoop_watch_list_witness :
    ∃ loop wo,
      Action.eventLoopRun loop optsA.WatchNamespaces wo ∈ (RunSqoop envOk optsA 0).trace ∧
        loop.syncer.writeNamespace = optsA.WriteNamespace :=
  (RunSqoop_watch_list envOk optsA 0).2.1 (by decide)

/-- Witness for C6: a serve call that fails makes the server goroutine log at
fatal level and end the process. -/
theorem failures_after_startup_witness :
    serverTask 9095 Router.new serveFails
        = [⟨Level.info, "starting graphql server on %d", toString 9095⟩,
            ⟨Level.fatal, "failed starting sqoop server: %v",
              "listen tcp :9095: bind: address already in use"⟩] ∧
      processExits (serverTask 9095 Router.new serveFails) = true :=
  (failures_after_startup envOk optsDirect 0).2.2.1 9095 Router.new serveFails
    "listen tcp :9095: bind: address already in use" rfl

/-- Witness for C4: two errors received in a row are logged in that order and
the goroutine keeps running. -/
theorem loggerTask_logs_each_error_witness :
    loggedErrs (loggerTask (["e1", "e2"].map Selected.recv) LoggerState.start).log
        = ["e1", "e2"] ∧
      (loggerTask (["e1", "e2"].map Selected.recv) LoggerState.start).returned = false :=
  ⟨(loggerTask_logs_each_error ["e1", "e2"]).2.1, (loggerTask_logs_each_error ["e1", "e2"]).2.2.1⟩

end Sqoop
